import Mathlib

/-!
Shallow embedding of the conversation-orchestration core of the VairamAI
chat client (src/types.ts, src/services/geminiService.ts, src/App.tsx,
src/components/ChatWindow.tsx), together with theorems settling the
claims about it.

Conventions of the embedding:
* TypeScript optional fields (`attachments?: Attachment[]`) become `Option`.
* JavaScript string truthiness (`if (msg.content)`) becomes `≠ ""`.
* A thrown exception becomes a `none` result; the remote service is an
  explicit `RemoteBehavior` parameter recording the outcome of each of the
  (up to three) network calls a turn can make.
* React `useState`: functional `setSessions(prev => ...)` updates compose
  sequentially on the latest state; plain variables read inside a handler
  (`sessions`, `currentSessionId`) are the closure snapshot taken when the
  handler's render happened, modelled by reading the state at call start.
* Every occurrence of `Date.now()` in one synchronous stretch is modelled
  by one `Nat` parameter (`t0` before the await, `t1` after).
-/

namespace VairamAI

/-- Role `'user' | 'model'` from src/types.ts (field `role` of `Message`). -/
inductive Role where
  | user
  | model
  deriving DecidableEq, Repr

/-- Kind `'image' | 'file' | 'audio'` from src/types.ts (field `type` of `Attachment`). -/
inductive AttachmentType where
  | image
  | file
  | audio
  deriving DecidableEq, Repr

/-- Structure `Attachment` from src/types.ts. `content` is a base64 data URL. -/
structure Attachment where
  type : AttachmentType
  content : String
  mimeType : String
  name : Option String
  deriving DecidableEq, Repr

/-- Structure `Message` from src/types.ts. `attachments` is optional in TypeScript,
hence `Option (List Attachment)`. -/
structure Message where
  id : String
  role : Role
  content : String
  attachments : Option (List Attachment)
  timestamp : Nat
  deriving DecidableEq, Repr

/-- The attachment list a message effectively carries (`msg.attachments || []`). -/
def Message.atts (m : Message) : List Attachment :=
  m.attachments.getD []

/-- Structure `ChatSession` from src/types.ts. -/
structure ChatSession where
  id : String
  title : String
  messages : List Message
  createdAt : Nat
  deriving DecidableEq, Repr

/-- Enum `LoadingState` enum from src/types.ts. -/
inductive LoadingState where
  | IDLE
  | THINKING
  | STREAMING
  | ERROR
  deriving DecidableEq, Repr

/-! ### Request Builder (src/services/geminiService.ts) -/

/-- The separator literal of the data-URL regex `^data:(.+);base64,(.+)$`. -/
def b64sep : String := ";base64,"

/-- Greedy-with-backtracking split for `(.+);base64,(.+)`: `segs` is the
input split on `";base64,"`; try the rightmost separator first and accept
the first split whose two sides are both non-empty, exactly as the greedy
`.+` groups of the JavaScript regex do. -/
def cleanSplit (segs : List String) : Option String :=
  ((List.range segs.length).reverse.filterMap (fun k =>
    if k = 0 then none
    else
      let mime := String.intercalate b64sep (segs.take k)
      let payload := String.intercalate b64sep (segs.drop k)
      if mime ≠ "" ∧ payload ≠ "" then some payload else none)).head?

/-- Function `cleanBase64` from src/services/geminiService.ts: match the data URL
against `^data:(.+);base64,(.+)$` and return the second group (the bare
base64 payload), or the input unchanged when the regex does not match.
JavaScript `.` matches neither `\n` nor `\r`, so inputs containing those
never match. -/
def cleanBase64 (dataUrl : String) : String :=
  if dataUrl.contains '\n' ∨ dataUrl.contains '\r' then dataUrl
  else if dataUrl.startsWith "data:" then
    match cleanSplit ((dataUrl.drop 5).splitOn b64sep) with
    | some payload => payload
    | none => dataUrl
  else dataUrl

/-- One element of a `parts` array sent to the remote service. -/
inductive Part where
  | inlineData (mimeType : String) (data : String)
  | text (s : String)
  | functionResponse (name : String) (id : Option String) (result : String)
  deriving DecidableEq, Repr

/-- One turn of the history handed to `ai.chats.create`. -/
structure HistoryTurn where
  role : Role
  parts : List Part
  deriving DecidableEq, Repr

/-- The parts built for one historical message inside the
`history.map` of `sendMessageToGemini` (attachments first, then the text
part when `msg.content` is truthy). -/
def msgToParts (msg : Message) : List Part :=
  let attParts :=
    match msg.attachments with
    | some atts =>
        if atts.length > 0 then
          atts.map (fun att => Part.inlineData att.mimeType (cleanBase64 att.content))
        else []
    | none => []
  attParts ++ (if msg.content ≠ "" then [Part.text msg.content] else [])

/-- The `const chatHistory = history.map(...)` of `sendMessageToGemini`:
every historical message yields one role-tagged turn. -/
def buildChatHistory (history : List Message) : List HistoryTurn :=
  history.map (fun msg => { role := msg.role, parts := msgToParts msg })

/-- The `currentParts` of `sendMessageToGemini`: parts for the new message
(attachments first, then the text part when `newMessage` is truthy). -/
def buildCurrentParts (newMessage : String) (newAttachments : List Attachment) : List Part :=
  newAttachments.map (fun att => Part.inlineData att.mimeType (cleanBase64 att.content))
    ++ (if newMessage ≠ "" then [Part.text newMessage] else [])

/-! ### Remote service model and the Tool-Call Resolver -/

/-- One entry of `result.functionCalls`: its `name`, optional `id`, and the
`args['prompt']` value the resolver extracts. -/
structure ToolCall where
  name : String
  id : Option String
  promptArg : String
  deriving DecidableEq, Repr

/-- A response of `chat.sendMessage`: `result.text` and
`result.functionCalls` are both optional in the SDK. -/
structure ChatResponse where
  text : Option String
  functionCalls : Option (List ToolCall)
  deriving DecidableEq, Repr

/-- A response of `ai.models.generateImages`: the optional
`generatedImages` array, each image reduced to its `image.imageBytes`. -/
structure ImagesResponse where
  generatedImages : Option (List String)
  deriving DecidableEq, Repr

/-- The remote service's behaviour for one turn: the outcome of each
network call `sendMessageToGemini` can make, in order. `none` means the
call throws. -/
structure RemoteBehavior where
  primary : Option ChatResponse
  images : Option ImagesResponse
  followup : Option ChatResponse
  deriving DecidableEq, Repr

/-- The value `sendMessageToGemini` resolves with:
`{ text, attachments }`. -/
structure TurnOutcome where
  text : String
  attachments : List Attachment
  deriving DecidableEq, Repr

/-- Full record of one `sendMessageToGemini` run: its outcome (`none` when
the function throws `"Failed to get response from VAIRAM AI."`), what it
built and which remote calls it issued. -/
structure GeminiCallLog where
  outcome : Option TurnOutcome
  builtHistory : List HistoryTurn
  builtParts : List Part
  primaryCalled : Bool
  imagesPrompt : Option String
  followupCalled : Bool
  deriving DecidableEq, Repr

/-- Canned confirmation when the post-image follow-up yields no text. -/
def imgConfirmText : String := "I have generated the image for you."

/-- Canned text when the image backend returns zero images. -/
def imgNoImageText : String := "I tried to generate an image, but no image was returned."

/-- Canned apology when the image-generation block throws. -/
def imgErrorText : String := "I apologize, but I encountered an error while attempting to generate the image."

/-- Canned placeholder when the resolution is fully empty. -/
def noResponseText : String := "I processed your request but have no text response."

/-- Intermediate result of the function-call handling block. -/
structure ResolveStep where
  text : String
  atts : List Attachment
  imagesPrompt : Option String
  followupCalled : Bool
  deriving DecidableEq, Repr

/-- The `if (functionCalls && functionCalls.length > 0)` block of
`sendMessageToGemini`: examine the first call; when it is named
`generate_image`, run the image backend inside a local try/catch, push the
attachment and do the follow-up call on success, and substitute canned
text when the backend returns no image or the block throws. Any other
situation leaves `responseText` and the empty attachment list untouched. -/
def resolveFunctionCalls (remote : RemoteBehavior) (responseText : String)
    (functionCalls : Option (List ToolCall)) : ResolveStep :=
  match functionCalls with
  | some (call :: _) =>
      if call.name = "generate_image" then
        let prompt := call.promptArg
        match remote.images with
        | none =>
            { text := imgErrorText, atts := [], imagesPrompt := some prompt,
              followupCalled := false }
        | some imageResponse =>
            match imageResponse.generatedImages with
            | some (imageBytes :: _) =>
                let att : Attachment :=
                  { type := AttachmentType.image,
                    content := "data:image/jpeg;base64," ++ imageBytes,
                    mimeType := "image/jpeg",
                    name := some "generated_image.jpg" }
                match remote.followup with
                | none =>
                    { text := imgErrorText, atts := [att],
                      imagesPrompt := some prompt, followupCalled := true }
                | some funcResponse =>
                    let t := funcResponse.text.getD ""
                    { text := if t = "" then imgConfirmText else t,
                      atts := [att], imagesPrompt := some prompt,
                      followupCalled := true }
            | _ =>
                { text := imgNoImageText, atts := [],
                  imagesPrompt := some prompt, followupCalled := false }
      else
        { text := responseText, atts := [], imagesPrompt := none,
          followupCalled := false }
  | _ =>
      { text := responseText, atts := [], imagesPrompt := none,
        followupCalled := false }

/-- The part of a `sendMessageToGemini` run that does not depend on the
(already built) chat history: its outcome and which remote calls it made. -/
structure GeminiCore where
  outcome : Option TurnOutcome
  primaryCalled : Bool
  imagesPrompt : Option String
  followupCalled : Bool
  deriving DecidableEq, Repr

/-- The control flow of `sendMessageToGemini` after the request is built:
reject an empty current message (`"Message cannot be empty"`), issue the
primary call, resolve a possible `generate_image` tool call, and apply the
final empty-result fallback. -/
def sendMessageCore (remote : RemoteBehavior) (currentParts : List Part) : GeminiCore :=
  if currentParts.length = 0 then
    { outcome := none, primaryCalled := false, imagesPrompt := none,
      followupCalled := false }
  else
    match remote.primary with
    | none =>
        { outcome := none, primaryCalled := true, imagesPrompt := none,
          followupCalled := false }
    | some result =>
        let responseText := result.text.getD ""
        let step := resolveFunctionCalls remote responseText result.functionCalls
        let finalText :=
          if step.text = "" ∧ step.atts.length = 0 then noResponseText else step.text
        { outcome := some { text := finalText, attachments := step.atts },
          primaryCalled := true, imagesPrompt := step.imagesPrompt,
          followupCalled := step.followupCalled }

/-- Function `sendMessageToGemini` from src/services/geminiService.ts: build the
chat history (`ai.chats.create`) and the current parts, then run the
send/resolve control flow. A `none` outcome is the rethrown
`"Failed to get response from VAIRAM AI."`. -/
def sendMessageToGemini (remote : RemoteBehavior) (history : List Message)
    (newMessage : String) (newAttachments : List Attachment) : GeminiCallLog :=
  let core := sendMessageCore remote (buildCurrentParts newMessage newAttachments)
  { outcome := core.outcome,
    builtHistory := buildChatHistory history,
    builtParts := buildCurrentParts newMessage newAttachments,
    primaryCalled := core.primaryCalled,
    imagesPrompt := core.imagesPrompt,
    followupCalled := core.followupCalled }

/-! ### Application state and the Turn Controller (src/App.tsx) -/

/-- The slice of `App`'s React state the orchestration core manipulates:
the authenticated-user flag, the session list, the current-session
selection and the shared loading state. -/
structure AppState where
  hasUser : Bool
  sessions : List ChatSession
  currentSessionId : Option String
  loadingState : LoadingState
  deriving DecidableEq, Repr

/-- The fresh chat id: "chat_" followed by the current time. -/
def mkChatId (t : Nat) : String := "chat_" ++ toString t

/-- The fresh session object built by `createNewChat` and by
`handleSendMessage`'s create-if-none branch. -/
def newConversation (t : Nat) : ChatSession :=
  { id := mkChatId t, title := "New Conversation", messages := [], createdAt := t }

/-- Function `createNewChat` from src/App.tsx: requires a logged-in user, prepends
a fresh session and selects it. -/
def createNewChat (st : AppState) (t : Nat) : AppState :=
  if !st.hasUser then st
  else
    { st with
      sessions := newConversation t :: st.sessions,
      currentSessionId := some (mkChatId t) }

/-- Function `handleRenameChat` from src/App.tsx. -/
def handleRenameChat (st : AppState) (id : String) (newTitle : String) : AppState :=
  { st with sessions := st.sessions.map (fun session =>
      if session.id = id then { session with title := newTitle } else session) }

/-- Function `handleDeleteChat` from src/App.tsx: filter the session out; when it
was current, select `remaining[0]` or none. -/
def handleDeleteChat (st : AppState) (id : String) : AppState :=
  let remaining := st.sessions.filter (fun s => s.id ≠ id)
  { st with
    sessions := remaining,
    currentSessionId :=
      if st.currentSessionId = some id then
        match remaining with
        | [] => none
        | s :: _ => some s.id
      else st.currentSessionId }

/-- The title derived for a session's first message in
`handleSendMessage`'s optimistic update. -/
def deriveTitle (content : String) (attachments : List Attachment) : String :=
  if content ≠ "" then
    content.take 30 ++ (if content.length > 30 then "..." else "")
  else if attachments.length > 0 then "Image Analysis"
  else "New Conversation"

/-- The optimistic user `Message` built by `handleSendMessage`. -/
def mkUserMessage (t0 : Nat) (content : String) (attachments : List Attachment) : Message :=
  { id := "msg_" ++ toString t0 ++ "_u", role := Role.user, content := content,
    attachments := some attachments, timestamp := t0 }

/-- The first `setSessions` of `handleSendMessage`: append the new user
message to the matching session, deriving the title when it is the
session's first message. -/
def pushUserMessage (activeSessionId : String) (content : String)
    (attachments : List Attachment) (newMessage : Message)
    (sessions : List ChatSession) : List ChatSession :=
  sessions.map fun session =>
    if session.id = activeSessionId then
      let isFirstMessage := session.messages.length = 0
      let newTitle :=
        if isFirstMessage then deriveTitle content attachments else session.title
      { session with title := newTitle, messages := session.messages ++ [newMessage] }
    else session

/-- A `setSessions(prev => prev.map(...))` that appends one message to the
session whose id matches; a `none` id (a null `currentSessionId`) matches
no session. -/
def appendToSession (sid : Option String) (msg : Message)
    (sessions : List ChatSession) : List ChatSession :=
  sessions.map fun s =>
    if some s.id = sid then { s with messages := s.messages ++ [msg] } else s

/-- The canned apology `handleError` appends. -/
def errorApologyText : String :=
  "I apologize, but I encountered an error while processing your request. Please try again."

/-- The model `Message` built by `handleError`; it carries no
`attachments` field. -/
def mkErrorMessage (t1 : Nat) : Message :=
  { id := "msg_" ++ toString t1 ++ "_err", role := Role.model,
    content := errorApologyText, attachments := none, timestamp := t1 }

/-- Function `handleError` from src/App.tsx, as a session-list update: append the
apology message to the session matching the *closure* value of
`currentSessionId` (the value at the handler's render). The surrounding
`ERROR` / `IDLE` loading transitions are recorded by the caller's trace. -/
def handleError (closureCurrentSessionId : Option String) (t1 : Nat)
    (sessions : List ChatSession) : List ChatSession :=
  appendToSession closureCurrentSessionId (mkErrorMessage t1) sessions

/-- Result of a send/edit handler run: the final state, the sequence of
loading states observed (starting with the initial one), and the
`sendMessageToGemini` log when that function was invoked. The handlers
never throw: every input maps to a `SendResult`. -/
structure SendResult where
  state : AppState
  trace : List LoadingState
  gemini : Option GeminiCallLog
  deriving DecidableEq, Repr

/-- Function `handleSendMessage` from src/App.tsx. `t0` models the `Date.now()`
calls before the await, `t1` those after it. The context passed to
`sendMessageToGemini` is reconstructed from the closure value of
`sessions` (the comment block at lines 149-155 of the source), so it is
the pre-append message list plus the new message — and the new message is
passed again as the current turn. -/
def handleSendMessage (st : AppState) (content : String)
    (attachments : List Attachment) (remote : RemoteBehavior)
    (t0 t1 : Nat) : SendResult :=
  let sessions0 := st.sessions
  let currentSessionId0 := st.currentSessionId
  let (activeSessionId, sessions1, current1) :=
    match currentSessionId0 with
    | some cid => (cid, sessions0, currentSessionId0)
    | none => (mkChatId t0, newConversation t0 :: sessions0, some (mkChatId t0))
  let newMessage := mkUserMessage t0 content attachments
  let sessions2 := pushUserMessage activeSessionId content attachments newMessage sessions1
  let previousMessages :=
    match sessions0.find? (fun s => s.id = activeSessionId) with
    | some s => s.messages
    | none => []
  let contextMessages := previousMessages ++ [newMessage]
  let log := sendMessageToGemini remote contextMessages content attachments
  match log.outcome with
  | some outcome =>
      let botMessage : Message :=
        { id := "msg_" ++ toString t1 ++ "_b", role := Role.model,
          content := outcome.text, attachments := some outcome.attachments,
          timestamp := t1 }
      { state := { st with
          sessions := appendToSession (some activeSessionId) botMessage sessions2,
          currentSessionId := current1,
          loadingState := LoadingState.IDLE },
        trace := [st.loadingState, LoadingState.THINKING, LoadingState.IDLE],
        gemini := some log }
  | none =>
      { state := { st with
          sessions := handleError currentSessionId0 t1 sessions2,
          currentSessionId := current1,
          loadingState := LoadingState.IDLE },
        trace := [st.loadingState, LoadingState.THINKING, LoadingState.ERROR,
                  LoadingState.IDLE],
        gemini := some log }

/-- The `messages.findIndex(m => m.id === messageId)` followed by
`slice(0, msgIndex)` and the indexed access, fused: the messages strictly
before the first message whose id matches, and that message. -/
def findMessageSplit : List Message → String → Option (List Message × Message)
  | [], _ => none
  | m :: rest, messageId =>
      if m.id = messageId then some ([], m)
      else
        match findMessageSplit rest messageId with
        | some (before, found) => some (m :: before, found)
        | none => none

/-- The `updatedUserMessage` object built by `handleEditMessage`: new
content and timestamp, original attachments re-attached
(`attachments || []`). -/
def updatedUserMessage (origMsg : Message) (newContent : String) (t0 : Nat) : Message :=
  { origMsg with
    content := newContent,
    timestamp := t0,
    attachments := some origMsg.atts }

/-- Function `handleEditMessage` from src/App.tsx: no-op when no session is
current, the session is missing, or the message id is not found;
otherwise replace the message's content and timestamp (re-attaching its
original attachments), truncate everything after it, and re-run the turn
with the messages before it as history. -/
def handleEditMessage (st : AppState) (messageId : String) (newContent : String)
    (remote : RemoteBehavior) (t0 t1 : Nat) : SendResult :=
  match st.currentSessionId with
  | none => { state := st, trace := [st.loadingState], gemini := none }
  | some cid =>
    match st.sessions.find? (fun s => s.id = cid) with
    | none => { state := st, trace := [st.loadingState], gemini := none }
    | some currentSession =>
      match findMessageSplit currentSession.messages messageId with
      | none => { state := st, trace := [st.loadingState], gemini := none }
      | some (historyBefore, origMsg) =>
        let originalAttachments := origMsg.atts
        let sessions2 := st.sessions.map (fun s =>
          if s.id = cid then
            { s with messages := historyBefore ++ [updatedUserMessage origMsg newContent t0] }
          else s)
        let log := sendMessageToGemini remote historyBefore newContent originalAttachments
        match log.outcome with
        | some outcome =>
            let botMessage : Message :=
              { id := "msg_" ++ toString t1 ++ "_b", role := Role.model,
                content := outcome.text, attachments := some outcome.attachments,
                timestamp := t1 }
            { state := { st with
                sessions := appendToSession (some cid) botMessage sessions2,
                loadingState := LoadingState.IDLE },
              trace := [st.loadingState, LoadingState.THINKING, LoadingState.IDLE],
              gemini := some log }
        | none =>
            { state := { st with
                sessions := handleError (some cid) t1 sessions2,
                loadingState := LoadingState.IDLE },
              trace := [st.loadingState, LoadingState.THINKING, LoadingState.ERROR,
                        LoadingState.IDLE],
              gemini := some log }

/-- Function `handleSend` from src/components/ChatWindow.tsx: the UI-level send,
gated on a non-blank input (or an attachment) and on the loading state
being `IDLE`; otherwise it returns without invoking `onSendMessage`. -/
def handleSend (st : AppState) (input : String) (attachments : List Attachment)
    (remote : RemoteBehavior) (t0 t1 : Nat) : SendResult :=
  if (input.trim = "" ∧ attachments.length = 0) ∨ st.loadingState ≠ LoadingState.IDLE then
    { state := st, trace := [st.loadingState], gemini := none }
  else
    handleSendMessage st input attachments remote t0 t1

/-! ### General lemmas about the embedding -/

/-- Whatever the remote does, the history `sendMessageToGemini` builds is
`buildChatHistory` of the history argument. -/
theorem sendMessageToGemini_builtHistory (remote : RemoteBehavior)
    (history : List Message) (newMessage : String) (newAttachments : List Attachment) :
    (sendMessageToGemini remote history newMessage newAttachments).builtHistory =
      buildChatHistory history := rfl

/-- Whatever the remote does, the current parts `sendMessageToGemini`
builds are `buildCurrentParts` of the new message and attachments. -/
theorem sendMessageToGemini_builtParts (remote : RemoteBehavior)
    (history : List Message) (newMessage : String) (newAttachments : List Attachment) :
    (sendMessageToGemini remote history newMessage newAttachments).builtParts =
      buildCurrentParts newMessage newAttachments := rfl

/-- The two ways a turn fails: zero current parts (the `EmptyMessage`
throw) or a failing primary call. Either yields a `none` outcome. -/
theorem sendMessageToGemini_fail (remote : RemoteBehavior)
    (history : List Message) (newMessage : String) (newAttachments : List Attachment)
    (h : remote.primary = none ∨ buildCurrentParts newMessage newAttachments = []) :
    (sendMessageToGemini remote history newMessage newAttachments).outcome = none := by
  show (sendMessageCore remote (buildCurrentParts newMessage newAttachments)).outcome = none
  unfold sendMessageCore
  rcases h with h | h
  · split
    · rfl
    · rw [h]
  · rw [h]
    rfl

/-- The outcome of `sendMessageToGemini` does not depend on the history
argument (only the built request does). -/
theorem sendMessageToGemini_outcome_indep (remote : RemoteBehavior)
    (h1 h2 : List Message) (newMessage : String) (newAttachments : List Attachment) :
    (sendMessageToGemini remote h1 newMessage newAttachments).outcome =
      (sendMessageToGemini remote h2 newMessage newAttachments).outcome := rfl

/-- Appending the error message after the optimistic user append is one
fused map over the original session list: matching sessions get exactly
the user message and then the apology appended, others are untouched. -/
theorem appendToSession_pushUserMessage (cid : String) (content : String)
    (atts : List Attachment) (um em : Message) (sessions : List ChatSession) :
    appendToSession (some cid) em (pushUserMessage cid content atts um sessions) =
      sessions.map (fun s =>
        if s.id = cid then
          { s with
            title := if s.messages.length = 0 then deriveTitle content atts else s.title,
            messages := s.messages ++ [um, em] }
        else s) := by
  unfold appendToSession pushUserMessage
  rw [List.map_map]
  apply List.map_congr_left
  intro s _
  by_cases h : s.id = cid <;> simp [h]

/-- The helper `findMessageSplit` finds the first message with the given id and
returns exactly the prefix before it together with it. -/
theorem findMessageSplit_spec (before : List Message) (orig : Message)
    (after : List Message) (messageId : String)
    (hb : ∀ m ∈ before, m.id ≠ messageId) (ho : orig.id = messageId) :
    findMessageSplit (before ++ orig :: after) messageId = some (before, orig) := by
  induction before with
  | nil => simp [findMessageSplit, ho]
  | cons m rest ih =>
      have hm : m.id ≠ messageId := hb m (by simp)
      have hrest : ∀ m' ∈ rest, m'.id ≠ messageId := fun m' hmem => hb m' (by simp [hmem])
      simp [findMessageSplit, hm, ih hrest]

/-- The function-call handler only looks at the first entry of the list:
any calls beyond the first are irrelevant. -/
theorem resolveFunctionCalls_first (remote : RemoteBehavior) (t : String)
    (c : ToolCall) (rest : List ToolCall) :
    resolveFunctionCalls remote t (some (c :: rest)) =
      resolveFunctionCalls remote t (some [c]) := rfl

/-- Lift one outcome computation to every history (the outcome never
depends on the history argument). -/
theorem gemini_outcome_all (remote : RemoteBehavior) (content : String)
    (atts : List Attachment) (o : Option TurnOutcome)
    (h : (sendMessageToGemini remote [] content atts).outcome = o) :
    ∀ hist, (sendMessageToGemini remote hist content atts).outcome = o :=
  fun hist => (sendMessageToGemini_outcome_indep remote hist [] content atts).trans h

/-- Searching a session list by id commutes with any per-session update
that preserves ids. -/
theorem find?_map_id_preserving (sessions : List ChatSession) (cid : String)
    (f : ChatSession → ChatSession) (hf : ∀ s, (f s).id = s.id) :
    (sessions.map f).find? (fun s => s.id = cid) =
      (sessions.find? (fun s => s.id = cid)).map f := by
  rw [List.find?_map]
  have hp : ((fun s => decide (s.id = cid)) ∘ f) = (fun s => decide (s.id = cid)) := by
    funext s
    simp [Function.comp, hf]
  rw [hp]

/-! ### Claim theorems -/

/-- C6: while the loading state is not `Idle`, invoking the UI send is a
no-op — the state is unchanged, nothing is appended, and
`sendMessageToGemini` (hence the remote service) is never invoked. -/
theorem c6_send_not_idle_noop (st : AppState) (input : String)
    (atts : List Attachment) (remote : RemoteBehavior) (t0 t1 : Nat)
    (h : st.loadingState ≠ LoadingState.IDLE) :
    handleSend st input atts remote t0 t1 =
      { state := st, trace := [st.loadingState], gemini := none } := by
  unfold handleSend
  rw [if_pos (Or.inr h)]

/-- Witness for C6 at a concrete `THINKING` state. -/
theorem c6_send_not_idle_noop_witness :
    (AppState.mk true [{ id := "s1", title := "T", messages := [], createdAt := 0 }]
        (some "s1") LoadingState.THINKING).loadingState ≠ LoadingState.IDLE
    ∧ handleSend
        (AppState.mk true [{ id := "s1", title := "T", messages := [], createdAt := 0 }]
          (some "s1") LoadingState.THINKING) "hi" [] (RemoteBehavior.mk none none none) 1 2 =
      { state := AppState.mk true [{ id := "s1", title := "T", messages := [], createdAt := 0 }]
          (some "s1") LoadingState.THINKING,
        trace := [LoadingState.THINKING], gemini := none } :=
  ⟨by decide, c6_send_not_idle_noop _ _ _ _ _ _ (by decide)⟩

/-- C7: a successful turn is never fully empty — any `some` outcome of
`sendMessageToGemini` has non-empty text or at least one attachment. -/
theorem c7_no_empty_outcome (remote : RemoteBehavior) (history : List Message)
    (newMessage : String) (newAttachments : List Attachment) (o : TurnOutcome)
    (h : (sendMessageToGemini remote history newMessage newAttachments).outcome = some o) :
    o.text ≠ "" ∨ o.attachments ≠ [] := by
  have h' : (sendMessageCore remote (buildCurrentParts newMessage newAttachments)).outcome
      = some o := h
  unfold sendMessageCore at h'
  split at h'
  · exact absurd h' (by simp)
  · split at h'
    · exact absurd h' (by simp)
    · rename_i result heq
      simp only [Option.some.injEq] at h'
      subst h'
      set step := resolveFunctionCalls remote (result.text.getD "") result.functionCalls
      by_cases hc : step.text = "" ∧ step.atts.length = 0
      · left
        show (if step.text = "" ∧ step.atts.length = 0 then noResponseText else step.text) ≠ ""
        rw [if_pos hc]
        decide
      · rcases not_and_or.mp hc with hne | hne
        · left
          show (if step.text = "" ∧ step.atts.length = 0 then noResponseText else step.text) ≠ ""
          rw [if_neg hc]
          exact hne
        · right
          intro hnil
          have hx : step.atts = [] := hnil
          exact hne (by rw [hx]; rfl)

/-- Witness for C7 at a concrete turn whose primary call answers "hello". -/
theorem c7_no_empty_outcome_witness :
    (sendMessageToGemini (RemoteBehavior.mk (some (ChatResponse.mk (some "hello") none)) none none)
        [] "hi" []).outcome = some (TurnOutcome.mk "hello" [])
    ∧ ((TurnOutcome.mk "hello" []).text ≠ "" ∨ (TurnOutcome.mk "hello" []).attachments ≠ []) :=
  ⟨rfl, c7_no_empty_outcome
    (RemoteBehavior.mk (some (ChatResponse.mk (some "hello") none)) none none)
    [] "hi" [] (TurnOutcome.mk "hello" []) rfl⟩

/-- C8 counterexample: a historical message with empty text and no
attachments is NOT omitted — it becomes a turn with an empty parts list,
so the built history of a one-empty-message history has one turn, not
zero. -/
theorem c8_counterexample :
    buildChatHistory [Message.mk "m1" Role.user "" none 5] =
      [HistoryTurn.mk Role.user []]
    ∧ ([HistoryTurn.mk Role.user []] : List HistoryTurn) ≠ [] :=
  ⟨rfl, by decide⟩

/-- C8 amended: the Request Builder maps every historical message to
exactly one turn — a message with no attachments and empty text is kept,
as a turn with its role and zero parts, rather than omitted. -/
theorem c8_amended_empty_turn_kept (history : List Message) :
    (buildChatHistory history).length = history.length
    ∧ ∀ m ∈ history, m.content = "" → m.atts = [] →
        HistoryTurn.mk m.role [] ∈ buildChatHistory history := by
  constructor
  · simp [buildChatHistory]
  · intro m hm hc ha
    have hparts : msgToParts m = [] := by
      unfold msgToParts
      rcases hatt : m.attachments with _ | atts
      · simp [hc]
      · have hnil : atts = [] := by simpa [Message.atts, hatt] using ha
        simp [hnil, hc]
    exact List.mem_map.mpr ⟨m, hm, by rw [hparts]⟩

/-- Witness for C8 amended: a two-message history, the first empty. -/
theorem c8_amended_empty_turn_kept_witness :
    (buildChatHistory [Message.mk "m0" Role.user "" none 1,
        Message.mk "m2" Role.model "ok" none 2]).length = 2
    ∧ HistoryTurn.mk Role.user [] ∈
        buildChatHistory [Message.mk "m0" Role.user "" none 1,
          Message.mk "m2" Role.model "ok" none 2] :=
  ⟨(c8_amended_empty_turn_kept _).1,
   (c8_amended_empty_turn_kept _).2 (Message.mk "m0" Role.user "" none 1)
     (by simp) rfl rfl⟩

/-- C9: `createNewChat` prepends the fresh session and selects it;
`handleDeleteChat` removes the session (an order-preserving sublist of
the old list survives, none of it carrying the deleted id), selects the
head of the remaining list when the deleted session was current, and
leaves the selection unchanged otherwise. -/
theorem c9_session_create_delete (st : AppState) (t : Nat) (id : String)
    (huser : st.hasUser = true) :
    (createNewChat st t).sessions = newConversation t :: st.sessions
    ∧ (createNewChat st t).currentSessionId = some (mkChatId t)
    ∧ (handleDeleteChat st id).sessions = st.sessions.filter (fun s => s.id ≠ id)
    ∧ (∀ s ∈ (handleDeleteChat st id).sessions, s.id ≠ id)
    ∧ List.Sublist (handleDeleteChat st id).sessions st.sessions
    ∧ (st.currentSessionId = some id →
        (handleDeleteChat st id).currentSessionId =
          ((st.sessions.filter (fun s => s.id ≠ id)).head?).map ChatSession.id)
    ∧ (st.currentSessionId ≠ some id →
        (handleDeleteChat st id).currentSessionId = st.currentSessionId) := by
  refine ⟨?_, ?_, rfl, ?_, ?_, ?_, ?_⟩
  · simp [createNewChat, huser]
  · simp [createNewChat, huser]
  · intro s hs
    have := List.of_mem_filter hs
    simpa using this
  · exact List.filter_sublist _
  · intro hcur
    show (if st.currentSessionId = some id then _ else _) = _
    rw [if_pos hcur]
    cases st.sessions.filter (fun s => s.id ≠ id) <;> rfl
  · intro hcur
    show (if st.currentSessionId = some id then _ else _) = _
    rw [if_neg hcur]

/-- Witness for C9 at a concrete two-session state whose current session
is deleted. -/
theorem c9_session_create_delete_witness :
    (createNewChat (AppState.mk true [ChatSession.mk "a" "A" [] 0, ChatSession.mk "b" "B" [] 0]
        (some "a") LoadingState.IDLE) 7).sessions =
      newConversation 7 :: [ChatSession.mk "a" "A" [] 0, ChatSession.mk "b" "B" [] 0]
    ∧ (handleDeleteChat (AppState.mk true [ChatSession.mk "a" "A" [] 0, ChatSession.mk "b" "B" [] 0]
        (some "a") LoadingState.IDLE) "a").currentSessionId = some "b" := by
  have h := c9_session_create_delete
    (AppState.mk true [ChatSession.mk "a" "A" [] 0, ChatSession.mk "b" "B" [] 0]
      (some "a") LoadingState.IDLE) 7 "a" rfl
  exact ⟨h.1, by rw [h.2.2.2.2.2.1 rfl]; rfl⟩

/-- C10 counterexample: a response whose only tool call has a name other
than `generate_image` and whose text is empty does NOT surface the
initial text as-is — the empty-result fallback replaces it with the
canned placeholder. -/
theorem c10_counterexample :
    (RemoteBehavior.mk (some (ChatResponse.mk (some "")
        (some [ToolCall.mk "other_tool" none "p"]))) (some (ImagesResponse.mk (some ["BYTES"])))
        (some (ChatResponse.mk (some "done") none))).primary =
      some (ChatResponse.mk (some "") (some [ToolCall.mk "other_tool" none "p"]))
    ∧ (sendMessageToGemini (RemoteBehavior.mk (some (ChatResponse.mk (some "")
        (some [ToolCall.mk "other_tool" none "p"]))) (some (ImagesResponse.mk (some ["BYTES"])))
        (some (ChatResponse.mk (some "done") none))) [] "hi" []).outcome =
      some (TurnOutcome.mk noResponseText [])
    ∧ noResponseText ≠ "" :=
  ⟨rfl, rfl, by decide⟩

/-- C10 amended: only the first tool call is ever examined (the result is
unchanged if the calls beyond the first are dropped), and when the first
call's name is not exactly `generate_image` the image backend and the
follow-up are never invoked, zero attachments are produced, and the
initial response text is kept — except that an empty initial text falls
through to the canned no-response placeholder. -/
theorem c10_amended_first_call_only (remote : RemoteBehavior) (history : List Message)
    (content : String) (atts : List Attachment) (resp : ChatResponse)
    (call : ToolCall) (rest : List ToolCall)
    (hprimary : remote.primary = some resp)
    (hcalls : resp.functionCalls = some (call :: rest)) :
    sendMessageToGemini remote history content atts =
      sendMessageToGemini
        { remote with primary := some { resp with functionCalls := some [call] } }
        history content atts
    ∧ (call.name ≠ "generate_image" →
        (sendMessageToGemini remote history content atts).outcome =
          (if buildCurrentParts content atts = [] then none
           else some (TurnOutcome.mk
             (if resp.text.getD "" = "" then noResponseText else resp.text.getD "") []))
        ∧ (sendMessageToGemini remote history content atts).imagesPrompt = none
        ∧ (sendMessageToGemini remote history content atts).followupCalled = false) := by
  constructor
  · unfold sendMessageToGemini sendMessageCore
    rw [hprimary]
    dsimp only
    rw [hcalls]
    rfl
  · intro hname
    have hres : resolveFunctionCalls remote (resp.text.getD "") resp.functionCalls =
        { text := resp.text.getD "", atts := [], imagesPrompt := none,
          followupCalled := false } := by
      rw [hcalls]
      unfold resolveFunctionCalls
      dsimp only
      rw [if_neg hname]
    refine ⟨?_, ?_, ?_⟩
    · show (sendMessageCore remote (buildCurrentParts content atts)).outcome = _
      unfold sendMessageCore
      rw [hprimary]
      by_cases hp : buildCurrentParts content atts = []
      · rw [if_pos (by rw [hp]; rfl), if_pos hp]
      · rw [if_neg (by simpa using hp), if_neg hp]
        dsimp only
        rw [hres]
        by_cases ht : resp.text.getD "" = ""
        · simp [ht]
        · simp [ht]
    · show (sendMessageCore remote (buildCurrentParts content atts)).imagesPrompt = _
      unfold sendMessageCore
      rw [hprimary]
      split
      · rfl
      · dsimp only
        rw [hres]
    · show (sendMessageCore remote (buildCurrentParts content atts)).followupCalled = _
      unfold sendMessageCore
      rw [hprimary]
      split
      · rfl
      · dsimp only
        rw [hres]

/-- Witness for C10 amended: a concrete response with two tool calls, the
first named `save_file`, non-empty text "txt". -/
theorem c10_amended_first_call_only_witness :
    sendMessageToGemini (RemoteBehavior.mk (some (ChatResponse.mk (some "txt")
        (some [ToolCall.mk "save_file" none "p", ToolCall.mk "generate_image" none "q"])))
        none none) [] "hi" [] =
      sendMessageToGemini (RemoteBehavior.mk (some (ChatResponse.mk (some "txt")
        (some [ToolCall.mk "save_file" none "p"]))) none none) [] "hi" []
    ∧ (sendMessageToGemini (RemoteBehavior.mk (some (ChatResponse.mk (some "txt")
        (some [ToolCall.mk "save_file" none "p", ToolCall.mk "generate_image" none "q"])))
        none none) [] "hi" []).outcome =
      (if buildCurrentParts "hi" [] = [] then none
       else some (TurnOutcome.mk
         (if (some "txt").getD "" = "" then noResponseText else (some "txt").getD "") [])) := by
  have h := c10_amended_first_call_only
    (RemoteBehavior.mk (some (ChatResponse.mk (some "txt")
      (some [ToolCall.mk "save_file" none "p", ToolCall.mk "generate_image" none "q"])))
      none none) [] "hi" []
    (ChatResponse.mk (some "txt")
      (some [ToolCall.mk "save_file" none "p", ToolCall.mk "generate_image" none "q"]))
    (ToolCall.mk "save_file" none "p") [ToolCall.mk "generate_image" none "q"] rfl rfl
  exact ⟨h.1, (h.2 (by decide)).1⟩

/-- C4 counterexample: sending empty text with zero attachments from an
`Idle` state does NOT leave the loading state at `Idle` — the handler
moves to `Thinking` before the builder rejects the message, so the state
runs through `Thinking` and `Error`. -/
theorem c4_counterexample :
    (handleSendMessage
        (AppState.mk true [ChatSession.mk "s1" "T" [] 0] (some "s1") LoadingState.IDLE)
        "" [] (RemoteBehavior.mk (some (ChatResponse.mk (some "x") none)) none none)
        10 11).trace =
      [LoadingState.IDLE, LoadingState.THINKING, LoadingState.ERROR, LoadingState.IDLE]
    ∧ ([LoadingState.IDLE, LoadingState.THINKING, LoadingState.ERROR, LoadingState.IDLE] :
        List LoadingState) ≠ [LoadingState.IDLE] :=
  ⟨rfl, by decide⟩

/-- C4 amended: an empty send fails in the Request Builder before any
remote call — the primary call, the image backend and the follow-up are
all never issued — but the loading state does not remain `Idle`: it
transitions `Idle → Thinking → Error → Idle` (ending at `Idle`). -/
theorem c4_amended_empty_send (st : AppState) (remote : RemoteBehavior) (t0 t1 : Nat)
    (hidle : st.loadingState = LoadingState.IDLE) :
    (handleSendMessage st "" [] remote t0 t1).trace =
      [LoadingState.IDLE, LoadingState.THINKING, LoadingState.ERROR, LoadingState.IDLE]
    ∧ (handleSendMessage st "" [] remote t0 t1).gemini.map GeminiCallLog.primaryCalled =
        some false
    ∧ (handleSendMessage st "" [] remote t0 t1).gemini.map GeminiCallLog.imagesPrompt =
        some none
    ∧ (handleSendMessage st "" [] remote t0 t1).gemini.map GeminiCallLog.followupCalled =
        some false
    ∧ (handleSendMessage st "" [] remote t0 t1).gemini.map GeminiCallLog.outcome =
        some none
    ∧ (handleSendMessage st "" [] remote t0 t1).state.loadingState = LoadingState.IDLE := by
  have hparts : buildCurrentParts "" [] = [] := rfl
  have hfail : ∀ hist, (sendMessageToGemini remote hist "" []).outcome = none :=
    gemini_outcome_all remote "" [] none
      (sendMessageToGemini_fail remote [] "" [] (Or.inr hparts))
  unfold handleSendMessage
  rcases hc : st.currentSessionId with _ | cid <;>
    dsimp only <;> rw [hfail] <;> dsimp only <;>
    exact ⟨by rw [hidle], rfl, rfl, rfl, by simp [hfail], rfl⟩

/-- Witness for C4 amended at a concrete one-session state. -/
theorem c4_amended_empty_send_witness :
    (handleSendMessage
        (AppState.mk true [ChatSession.mk "s2" "T" [] 0] (some "s2") LoadingState.IDLE)
        "" [] (RemoteBehavior.mk none none none) 10 11).trace =
      [LoadingState.IDLE, LoadingState.THINKING, LoadingState.ERROR, LoadingState.IDLE]
    ∧ (handleSendMessage
        (AppState.mk true [ChatSession.mk "s2" "T" [] 0] (some "s2") LoadingState.IDLE)
        "" [] (RemoteBehavior.mk none none none) 10 11).gemini.map
          GeminiCallLog.primaryCalled = some false
    ∧ (handleSendMessage
        (AppState.mk true [ChatSession.mk "s2" "T" [] 0] (some "s2") LoadingState.IDLE)
        "" [] (RemoteBehavior.mk none none none) 10 11).gemini.map
          GeminiCallLog.imagesPrompt = some none
    ∧ (handleSendMessage
        (AppState.mk true [ChatSession.mk "s2" "T" [] 0] (some "s2") LoadingState.IDLE)
        "" [] (RemoteBehavior.mk none none none) 10 11).gemini.map
          GeminiCallLog.followupCalled = some false
    ∧ (handleSendMessage
        (AppState.mk true [ChatSession.mk "s2" "T" [] 0] (some "s2") LoadingState.IDLE)
        "" [] (RemoteBehavior.mk none none none) 10 11).gemini.map
          GeminiCallLog.outcome = some none
    ∧ (handleSendMessage
        (AppState.mk true [ChatSession.mk "s2" "T" [] 0] (some "s2") LoadingState.IDLE)
        "" [] (RemoteBehavior.mk none none none) 10 11).state.loadingState =
      LoadingState.IDLE :=
  c4_amended_empty_send
    (AppState.mk true [ChatSession.mk "s2" "T" [] 0] (some "s2") LoadingState.IDLE)
    (RemoteBehavior.mk none none none) 10 11 rfl

/-- C2 counterexample: a failing send that had to auto-create its session
(no session was selected) transitions `Idle → Thinking → Error → Idle`,
yet appends NO apology message at all — the error handler resolves the
closure value of `currentSessionId`, which was still null, so the apology
matches no session. -/
theorem c2_counterexample :
    (handleSendMessage (AppState.mk true [] none LoadingState.IDLE) "hi" []
        (RemoteBehavior.mk none none none) 10 11).trace =
      [LoadingState.IDLE, LoadingState.THINKING, LoadingState.ERROR, LoadingState.IDLE]
    ∧ (handleSendMessage (AppState.mk true [] none LoadingState.IDLE) "hi" []
        (RemoteBehavior.mk none none none) 10 11).state.sessions.map
          (fun s => s.messages.filter (fun m => m.content = errorApologyText)) = [[]]
    ∧ (handleSendMessage (AppState.mk true [] none LoadingState.IDLE) "hi" []
        (RemoteBehavior.mk none none none) 10 11).state.sessions.map
          (fun s => s.messages.length) = [1] :=
  ⟨rfl, rfl, rfl⟩

/-- C2 amended: when a session was current at send start, a failing send
(remote failure or builder rejection) transitions
`Idle → Thinking → Error → Idle`, appends exactly the optimistic user
message followed by exactly one model message carrying the canned apology
and no attachments to that session while every other session is
untouched, and the handler returns a result instead of throwing. When no
session was current (auto-create), the transitions still occur but the
apology is appended to no session. -/
theorem c2_amended_failing_send (st : AppState) (content : String)
    (atts : List Attachment) (remote : RemoteBehavior) (t0 t1 : Nat) (cid : String)
    (hidle : st.loadingState = LoadingState.IDLE)
    (hcur : st.currentSessionId = some cid)
    (hfail : remote.primary = none ∨ buildCurrentParts content atts = []) :
    (handleSendMessage st content atts remote t0 t1).trace =
      [LoadingState.IDLE, LoadingState.THINKING, LoadingState.ERROR, LoadingState.IDLE]
    ∧ (handleSendMessage st content atts remote t0 t1).state.loadingState =
        LoadingState.IDLE
    ∧ (handleSendMessage st content atts remote t0 t1).state.currentSessionId = some cid
    ∧ (handleSendMessage st content atts remote t0 t1).state.sessions =
        st.sessions.map (fun s =>
          if s.id = cid then
            { s with
              title := if s.messages.length = 0 then deriveTitle content atts else s.title,
              messages := s.messages ++ [mkUserMessage t0 content atts, mkErrorMessage t1] }
          else s)
    ∧ (mkErrorMessage t1).role = Role.model
    ∧ (mkErrorMessage t1).content = errorApologyText
    ∧ (mkErrorMessage t1).atts = [] := by
  have hfail' : ∀ hist, (sendMessageToGemini remote hist content atts).outcome = none :=
    gemini_outcome_all remote content atts none
      (sendMessageToGemini_fail remote [] content atts hfail)
  unfold handleSendMessage
  rw [hcur]
  dsimp only
  rw [hfail']
  dsimp only
  refine ⟨by rw [hidle], rfl, rfl, ?_, rfl, rfl, rfl⟩
  show handleError (some cid) t1
      (pushUserMessage cid content atts (mkUserMessage t0 content atts) st.sessions) = _
  unfold handleError
  exact appendToSession_pushUserMessage cid content atts
    (mkUserMessage t0 content atts) (mkErrorMessage t1) st.sessions

/-- Witness for C2 amended at a concrete two-session state with a failing
remote. -/
theorem c2_amended_failing_send_witness :
    (handleSendMessage
        (AppState.mk true [ChatSession.mk "a" "A" [] 0, ChatSession.mk "b" "B" [] 0]
          (some "a") LoadingState.IDLE) "hi" [] (RemoteBehavior.mk none none none)
        10 11).trace =
      [LoadingState.IDLE, LoadingState.THINKING, LoadingState.ERROR, LoadingState.IDLE]
    ∧ (handleSendMessage
        (AppState.mk true [ChatSession.mk "a" "A" [] 0, ChatSession.mk "b" "B" [] 0]
          (some "a") LoadingState.IDLE) "hi" [] (RemoteBehavior.mk none none none)
        10 11).state.loadingState = LoadingState.IDLE
    ∧ (handleSendMessage
        (AppState.mk true [ChatSession.mk "a" "A" [] 0, ChatSession.mk "b" "B" [] 0]
          (some "a") LoadingState.IDLE) "hi" [] (RemoteBehavior.mk none none none)
        10 11).state.currentSessionId = some "a"
    ∧ (handleSendMessage
        (AppState.mk true [ChatSession.mk "a" "A" [] 0, ChatSession.mk "b" "B" [] 0]
          (some "a") LoadingState.IDLE) "hi" [] (RemoteBehavior.mk none none none)
        10 11).state.sessions =
      [ChatSession.mk "a" "A" [] 0, ChatSession.mk "b" "B" [] 0].map (fun s =>
        if s.id = "a" then
          { s with
            title := if s.messages.length = 0 then deriveTitle "hi" [] else s.title,
            messages := s.messages ++ [mkUserMessage 10 "hi" [], mkErrorMessage 11] }
        else s)
    ∧ (mkErrorMessage 11).role = Role.model
    ∧ (mkErrorMessage 11).content = errorApologyText
    ∧ (mkErrorMessage 11).atts = [] :=
  c2_amended_failing_send
    (AppState.mk true [ChatSession.mk "a" "A" [] 0, ChatSession.mk "b" "B" [] 0]
      (some "a") LoadingState.IDLE) "hi" [] (RemoteBehavior.mk none none none)
    10 11 "a" rfl rfl (Or.inl rfl)

/-- C3: when the remote response's first tool call requests
`generate_image` but the image backend throws, returns no image array, or
returns zero images, the error stays inside the resolver: the turn
resolves successfully with one of the two canned image-failure strings
and zero attachments, and the loading state runs `Idle → Thinking → Idle`
without ever reaching `Error`. -/
theorem c3_image_failure_recovered_locally (st : AppState) (content : String)
    (atts : List Attachment) (remote : RemoteBehavior) (t0 t1 : Nat)
    (resp : ChatResponse) (call : ToolCall) (rest : List ToolCall)
    (hidle : st.loadingState = LoadingState.IDLE)
    (hparts : buildCurrentParts content atts ≠ [])
    (hprimary : remote.primary = some resp)
    (hcalls : resp.functionCalls = some (call :: rest))
    (hname : call.name = "generate_image")
    (himg : remote.images = none ∨ remote.images = some (ImagesResponse.mk none)
            ∨ remote.images = some (ImagesResponse.mk (some []))) :
    ((handleSendMessage st content atts remote t0 t1).gemini.map GeminiCallLog.outcome =
        some (some (TurnOutcome.mk imgErrorText []))
      ∨ (handleSendMessage st content atts remote t0 t1).gemini.map GeminiCallLog.outcome =
        some (some (TurnOutcome.mk imgNoImageText [])))
    ∧ (handleSendMessage st content atts remote t0 t1).trace =
        [LoadingState.IDLE, LoadingState.THINKING, LoadingState.IDLE]
    ∧ LoadingState.ERROR ∉ (handleSendMessage st content atts remote t0 t1).trace
    ∧ (handleSendMessage st content atts remote t0 t1).state.loadingState =
        LoadingState.IDLE := by
  have hstep : resolveFunctionCalls remote (resp.text.getD "") resp.functionCalls =
      { text := if remote.images = none then imgErrorText else imgNoImageText,
        atts := [], imagesPrompt := some call.promptArg, followupCalled := false } := by
    rw [hcalls]
    unfold resolveFunctionCalls
    dsimp only
    rw [if_pos hname]
    rcases himg with h | h | h <;> rw [h] <;> simp
  have hTne : (if remote.images = none then imgErrorText else imgNoImageText) ≠ "" := by
    split <;> decide
  have hcore : ∀ hist, (sendMessageToGemini remote hist content atts).outcome =
      some (TurnOutcome.mk
        (if remote.images = none then imgErrorText else imgNoImageText) []) := by
    apply gemini_outcome_all
    show (sendMessageCore remote (buildCurrentParts content atts)).outcome = _
    unfold sendMessageCore
    rw [if_neg (fun h => hparts (List.length_eq_zero.mp h)), hprimary]
    dsimp only
    rw [hstep]
    dsimp only
    rw [if_neg (fun hand => hTne hand.1)]
  unfold handleSendMessage
  rcases hc : st.currentSessionId with _ | cid <;> dsimp only <;> rw [hcore] <;>
    dsimp only <;>
    refine ⟨?_, by rw [hidle], by rw [hidle]; decide, rfl⟩ <;>
    by_cases him : remote.images = none
  · left
    simp [hcore, him]
  · right
    simp [hcore, him]
  · left
    simp [hcore, him]
  · right
    simp [hcore, him]

/-- Witness for C3: a concrete turn whose tool call gets zero images
back. -/
theorem c3_image_failure_recovered_locally_witness :
    ((handleSendMessage
        (AppState.mk true [ChatSession.mk "s1" "T" [] 0] (some "s1") LoadingState.IDLE)
        "draw" [] (RemoteBehavior.mk (some (ChatResponse.mk (some "t")
          (some [ToolCall.mk "generate_image" (some "id1") "cat"])))
          (some (ImagesResponse.mk (some []))) none) 10 11).gemini.map
            GeminiCallLog.outcome =
        some (some (TurnOutcome.mk imgErrorText []))
      ∨ (handleSendMessage
        (AppState.mk true [ChatSession.mk "s1" "T" [] 0] (some "s1") LoadingState.IDLE)
        "draw" [] (RemoteBehavior.mk (some (ChatResponse.mk (some "t")
          (some [ToolCall.mk "generate_image" (some "id1") "cat"])))
          (some (ImagesResponse.mk (some []))) none) 10 11).gemini.map
            GeminiCallLog.outcome =
        some (some (TurnOutcome.mk imgNoImageText [])))
    ∧ (handleSendMessage
        (AppState.mk true [ChatSession.mk "s1" "T" [] 0] (some "s1") LoadingState.IDLE)
        "draw" [] (RemoteBehavior.mk (some (ChatResponse.mk (some "t")
          (some [ToolCall.mk "generate_image" (some "id1") "cat"])))
          (some (ImagesResponse.mk (some []))) none) 10 11).trace =
        [LoadingState.IDLE, LoadingState.THINKING, LoadingState.IDLE]
    ∧ LoadingState.ERROR ∉ (handleSendMessage
        (AppState.mk true [ChatSession.mk "s1" "T" [] 0] (some "s1") LoadingState.IDLE)
        "draw" [] (RemoteBehavior.mk (some (ChatResponse.mk (some "t")
          (some [ToolCall.mk "generate_image" (some "id1") "cat"])))
          (some (ImagesResponse.mk (some []))) none) 10 11).trace
    ∧ (handleSendMessage
        (AppState.mk true [ChatSession.mk "s1" "T" [] 0] (some "s1") LoadingState.IDLE)
        "draw" [] (RemoteBehavior.mk (some (ChatResponse.mk (some "t")
          (some [ToolCall.mk "generate_image" (some "id1") "cat"])))
          (some (ImagesResponse.mk (some []))) none) 10 11).state.loadingState =
      LoadingState.IDLE :=
  c3_image_failure_recovered_locally
    (AppState.mk true [ChatSession.mk "s1" "T" [] 0] (some "s1") LoadingState.IDLE)
    "draw" [] (RemoteBehavior.mk (some (ChatResponse.mk (some "t")
      (some [ToolCall.mk "generate_image" (some "id1") "cat"])))
      (some (ImagesResponse.mk (some []))) none) 10 11
    (ChatResponse.mk (some "t") (some [ToolCall.mk "generate_image" (some "id1") "cat"]))
    (ToolCall.mk "generate_image" (some "id1") "cat") [] rfl (by decide) rfl rfl rfl
    (Or.inr (Or.inr rfl))

/-- C1 counterexample: sending "hi" into a session whose pre-send message
list is empty issues a request whose history is NOT the encoding of that
empty list — the optimistic user message is folded into the history
(one user turn carrying "hi") while the same "hi" is also sent as the
current turn's parts, so the new message is transmitted twice. -/
theorem c1_counterexample :
    (handleSendMessage
        (AppState.mk true [ChatSession.mk "s1" "T" [] 0] (some "s1") LoadingState.IDLE)
        "hi" [] (RemoteBehavior.mk (some (ChatResponse.mk (some "yo") none)) none none)
        10 11).gemini.map
          (fun log => (log.primaryCalled, log.builtHistory, log.builtParts)) =
      some (true, [HistoryTurn.mk Role.user [Part.text "hi"]], [Part.text "hi"])
    ∧ buildChatHistory ([] : List Message) = []
    ∧ [HistoryTurn.mk Role.user [Part.text "hi"]] ≠ ([] : List HistoryTurn) :=
  ⟨rfl, rfl, by decide⟩

/-- C1 amended: the request history handed to the remote service is the
pre-append message list of the session PLUS one extra final turn encoding
the new user message, whose text also appears in the separately
transmitted current-turn parts — the new message is sent twice, not
once. -/
theorem c1_amended_history_includes_new_message (st : AppState) (content : String)
    (atts : List Attachment) (remote : RemoteBehavior) (t0 t1 : Nat) (cid : String)
    (sess : ChatSession)
    (hcur : st.currentSessionId = some cid)
    (hfind : st.sessions.find? (fun s => s.id = cid) = some sess) :
    (handleSendMessage st content atts remote t0 t1).gemini =
      some (sendMessageToGemini remote (sess.messages ++ [mkUserMessage t0 content atts])
        content atts)
    ∧ (sendMessageToGemini remote (sess.messages ++ [mkUserMessage t0 content atts])
        content atts).builtHistory =
      buildChatHistory sess.messages ++
        [HistoryTurn.mk Role.user (msgToParts (mkUserMessage t0 content atts))]
    ∧ (sendMessageToGemini remote (sess.messages ++ [mkUserMessage t0 content atts])
        content atts).builtParts = buildCurrentParts content atts
    ∧ (content ≠ "" →
        Part.text content ∈ msgToParts (mkUserMessage t0 content atts)
        ∧ Part.text content ∈ buildCurrentParts content atts) := by
  refine ⟨?_, ?_, rfl, ?_⟩
  · unfold handleSendMessage
    rw [hcur]
    dsimp only
    rw [hfind]
    dsimp only
    cases ho : (sendMessageToGemini remote (sess.messages ++ [mkUserMessage t0 content atts])
        content atts).outcome <;> rfl
  · rw [sendMessageToGemini_builtHistory]
    simp [buildChatHistory, mkUserMessage]
  · intro hne
    constructor
    · simp [msgToParts, mkUserMessage, hne]
    · simp [buildCurrentParts, hne]

/-- Witness for C1 amended: a session holding one prior exchange. -/
theorem c1_amended_history_includes_new_message_witness :
    (handleSendMessage
        (AppState.mk true
          [ChatSession.mk "s1" "T" [Message.mk "m1" Role.user "hello" none 1] 0]
          (some "s1") LoadingState.IDLE)
        "hi" [] (RemoteBehavior.mk (some (ChatResponse.mk (some "yo") none)) none none)
        10 11).gemini =
      some (sendMessageToGemini (RemoteBehavior.mk (some (ChatResponse.mk (some "yo") none))
          none none)
        ([Message.mk "m1" Role.user "hello" none 1] ++ [mkUserMessage 10 "hi" []]) "hi" [])
    ∧ (sendMessageToGemini (RemoteBehavior.mk (some (ChatResponse.mk (some "yo") none))
          none none)
        ([Message.mk "m1" Role.user "hello" none 1] ++ [mkUserMessage 10 "hi" []])
        "hi" []).builtHistory =
      buildChatHistory [Message.mk "m1" Role.user "hello" none 1] ++
        [HistoryTurn.mk Role.user (msgToParts (mkUserMessage 10 "hi" []))]
    ∧ (sendMessageToGemini (RemoteBehavior.mk (some (ChatResponse.mk (some "yo") none))
          none none)
        ([Message.mk "m1" Role.user "hello" none 1] ++ [mkUserMessage 10 "hi" []])
        "hi" []).builtParts = buildCurrentParts "hi" []
    ∧ (Part.text "hi" ∈ msgToParts (mkUserMessage 10 "hi" [])
        ∧ Part.text "hi" ∈ buildCurrentParts "hi" []) := by
  have h := c1_amended_history_includes_new_message
    (AppState.mk true [ChatSession.mk "s1" "T" [Message.mk "m1" Role.user "hello" none 1] 0]
      (some "s1") LoadingState.IDLE)
    "hi" [] (RemoteBehavior.mk (some (ChatResponse.mk (some "yo") none)) none none)
    10 11 "s1" (ChatSession.mk "s1" "T" [Message.mk "m1" Role.user "hello" none 1] 0)
    rfl rfl
  exact ⟨h.1, h.2.1, h.2.2.1, h.2.2.2 (by decide)⟩

/-- Looking up the edited session after the truncate-and-append updates of
the edit flow yields the session with exactly the truncated list plus the
one appended message. -/
theorem find?_truncate_append (sessions : List ChatSession) (cid : String)
    (sess : ChatSession)
    (hfind : sessions.find? (fun s => s.id = cid) = some sess)
    (newMsgs : List Message) (M : Message) :
    (appendToSession (some cid) M (sessions.map (fun s =>
        if s.id = cid then { s with messages := newMsgs } else s))).find?
      (fun s => s.id = cid) =
      some { sess with messages := newMsgs ++ [M] } := by
  have hsid : sess.id = cid := by simpa using List.find?_some hfind
  unfold appendToSession
  rw [find?_map_id_preserving _ _ _ (fun s => by by_cases h : some s.id = some cid <;> simp [h]),
      find?_map_id_preserving _ _ _ (fun s => by by_cases h : s.id = cid <;> simp [h]),
      hfind]
  simp [hsid]

/-- C5: editing the message at position `k` (the first message carrying
the edited id, preceded by `before` with `before.length = k`) replaces its
content and timestamp while keeping its id, role and attachment list,
discards every message after position `k`, and leaves positions before
`k` unchanged; the re-run turn then appends a single model reply, so the
edited session ends as `before ++ [edited message, one model message]`. -/
theorem c5_edit_replaces_and_truncates (st : AppState) (messageId newContent : String)
    (remote : RemoteBehavior) (t0 t1 : Nat) (cid : String) (sess : ChatSession)
    (before : List Message) (orig : Message) (after : List Message)
    (hcur : st.currentSessionId = some cid)
    (hfind : st.sessions.find? (fun s => s.id = cid) = some sess)
    (hmsgs : sess.messages = before ++ orig :: after)
    (hbefore : ∀ m ∈ before, m.id ≠ messageId)
    (hid : orig.id = messageId) :
    (updatedUserMessage orig newContent t0).atts = orig.atts
    ∧ (updatedUserMessage orig newContent t0).id = orig.id
    ∧ (updatedUserMessage orig newContent t0).role = orig.role
    ∧ (updatedUserMessage orig newContent t0).content = newContent
    ∧ (updatedUserMessage orig newContent t0).timestamp = t0
    ∧ (handleEditMessage st messageId newContent remote t0 t1).gemini =
        some (sendMessageToGemini remote before newContent orig.atts)
    ∧ (handleEditMessage st messageId newContent remote t0 t1).state.sessions.find?
        (fun s => s.id = cid) ≠ none
    ∧ ∀ s', (handleEditMessage st messageId newContent remote t0 t1).state.sessions.find?
          (fun s => s.id = cid) = some s' →
        s'.messages.take (before.length + 1) =
          before ++ [updatedUserMessage orig newContent t0]
        ∧ s'.messages.length = before.length + 2
        ∧ ∀ m ∈ s'.messages.drop (before.length + 1), m.role = Role.model := by
  have hsplit : findMessageSplit sess.messages messageId = some (before, orig) := by
    rw [hmsgs]
    exact findMessageSplit_spec before orig after messageId hbefore hid
  have htake : ∀ (M : Message),
      ((before ++ [updatedUserMessage orig newContent t0]) ++ [M]).take
          (before.length + 1) =
        before ++ [updatedUserMessage orig newContent t0] :=
    fun M => List.take_left' (by simp)
  have hdrop : ∀ (M : Message),
      ((before ++ [updatedUserMessage orig newContent t0]) ++ [M]).drop
          (before.length + 1) = [M] :=
    fun M => List.drop_left' (by simp)
  unfold handleEditMessage
  rw [hcur]
  dsimp only
  rw [hfind]
  dsimp only
  rw [hsplit]
  dsimp only
  cases ho : (sendMessageToGemini remote before newContent orig.atts).outcome with
  | none =>
      dsimp only
      have hf := find?_truncate_append st.sessions cid sess hfind
        (before ++ [updatedUserMessage orig newContent t0]) (mkErrorMessage t1)
      refine ⟨rfl, rfl, rfl, rfl, rfl, rfl, ?_, ?_⟩
      · unfold handleError
        rw [hf]
        simp
      · intro s' hs'
        unfold handleError at hs'
        rw [hf] at hs'
        simp only [Option.some.injEq] at hs'
        subst hs'
        refine ⟨htake _, by simp, ?_⟩
        intro m hm
        dsimp only at hm
        rw [hdrop _] at hm
        simp only [List.mem_singleton] at hm
        subst hm
        rfl
  | some o =>
      dsimp only
      have hf := find?_truncate_append st.sessions cid sess hfind
        (before ++ [updatedUserMessage orig newContent t0])
        (Message.mk ("msg_" ++ toString t1 ++ "_b") Role.model o.text
          (some o.attachments) t1)
      refine ⟨rfl, rfl, rfl, rfl, rfl, rfl, ?_, ?_⟩
      · rw [hf]
        simp
      · intro s' hs'
        rw [hf] at hs'
        simp only [Option.some.injEq] at hs'
        subst hs'
        refine ⟨htake _, by simp, ?_⟩
        intro m hm
        dsimp only at hm
        rw [hdrop _] at hm
        simp only [List.mem_singleton] at hm
        subst hm
        rfl

/-- Witness for C5: edit the middle message of a three-message session
(its attachment list survives; the remote reply succeeds). -/
theorem c5_edit_replaces_and_truncates_witness :
    (updatedUserMessage
        (Message.mk "m2" Role.user "b"
          (some [Attachment.mk AttachmentType.image "data:image/png;base64,QUJD"
            "image/png" (some "x.png")]) 2) "B!" 10).atts =
      (Message.mk "m2" Role.user "b"
        (some [Attachment.mk AttachmentType.image "data:image/png;base64,QUJD"
          "image/png" (some "x.png")]) 2).atts
    ∧ (handleEditMessage
        (AppState.mk true
          [ChatSession.mk "s1" "T"
            [Message.mk "m1" Role.user "a" none 1,
             Message.mk "m2" Role.user "b"
               (some [Attachment.mk AttachmentType.image "data:image/png;base64,QUJD"
                 "image/png" (some "x.png")]) 2,
             Message.mk "m3" Role.model "c" none 3] 0]
          (some "s1") LoadingState.IDLE)
        "m2" "B!" (RemoteBehavior.mk (some (ChatResponse.mk (some "ok") none)) none none)
        10 11).gemini =
      some (sendMessageToGemini
        (RemoteBehavior.mk (some (ChatResponse.mk (some "ok") none)) none none)
        [Message.mk "m1" Role.user "a" none 1] "B!"
        [Attachment.mk AttachmentType.image "data:image/png;base64,QUJD"
          "image/png" (some "x.png")])
    ∧ (handleEditMessage
        (AppState.mk true
          [ChatSession.mk "s1" "T"
            [Message.mk "m1" Role.user "a" none 1,
             Message.mk "m2" Role.user "b"
               (some [Attachment.mk AttachmentType.image "data:image/png;base64,QUJD"
                 "image/png" (some "x.png")]) 2,
             Message.mk "m3" Role.model "c" none 3] 0]
          (some "s1") LoadingState.IDLE)
        "m2" "B!" (RemoteBehavior.mk (some (ChatResponse.mk (some "ok") none)) none none)
        10 11).state.sessions.find? (fun s => s.id = "s1") ≠ none := by
  have h := c5_edit_replaces_and_truncates
    (AppState.mk true
      [ChatSession.mk "s1" "T"
        [Message.mk "m1" Role.user "a" none 1,
         Message.mk "m2" Role.user "b"
           (some [Attachment.mk AttachmentType.image "data:image/png;base64,QUJD"
             "image/png" (some "x.png")]) 2,
         Message.mk "m3" Role.model "c" none 3] 0]
      (some "s1") LoadingState.IDLE)
    "m2" "B!" (RemoteBehavior.mk (some (ChatResponse.mk (some "ok") none)) none none)
    10 11 "s1"
    (ChatSession.mk "s1" "T"
      [Message.mk "m1" Role.user "a" none 1,
       Message.mk "m2" Role.user "b"
         (some [Attachment.mk AttachmentType.image "data:image/png;base64,QUJD"
           "image/png" (some "x.png")]) 2,
       Message.mk "m3" Role.model "c" none 3] 0)
    [Message.mk "m1" Role.user "a" none 1]
    (Message.mk "m2" Role.user "b"
      (some [Attachment.mk AttachmentType.image "data:image/png;base64,QUJD"
        "image/png" (some "x.png")]) 2)
    [Message.mk "m3" Role.model "c" none 3]
    rfl rfl rfl (by decide) rfl
  exact ⟨h.1, h.2.2.2.2.2.1, h.2.2.2.2.2.2.1⟩

end VairamAI
